import Mathlib

/-!
Shallow embedding of the MAAS release-progress checklist tool
(`utilities/release-status`, a Python script) and of the version
validation performed by the companion `release-prepare` shell script.

Python strings are modelled as `List Char`; Python exceptions
(`RuntimeError`, `ValueError`, `KeyError`, `IndexError`) are modelled
with `Except`: a `.error` value is an exception escaping the function.
Subprocess calls to `git` are modelled as oracle functions bundled in a
`GitRepo` structure; HTTP responses are modelled as already-parsed
structures.
-/

abbrev Str := List Char

deriving instance DecidableEq for Except

def str (s : String) : Str := s.data

/-- Python `c in s` for a single character `c` (`"-" in version`). -/
def containsChar (c : Char) : Str → Bool
  | [] => false
  | x :: xs => x == c || containsChar c xs

/-- Python `p in s` substring test (`"beta" in self.preparer.version`). -/
def containsSub (p : Str) (s : Str) : Bool :=
  match s with
  | [] => p.isEmpty
  | _ :: xs => p.isPrefixOf s || containsSub p xs

/-- The chars of `s` strictly before the first occurrence of `c`. -/
def takeUntil (c : Char) : Str → Str
  | [] => []
  | x :: xs => if x == c then [] else x :: takeUntil c xs

/-- The chars of `s` strictly after the first occurrence of `c`
(`none` when `c` does not occur). -/
def afterFirst (c : Char) : Str → Option Str
  | [] => none
  | x :: xs => if x == c then some xs else afterFirst c xs

/-- Python `s.split(c)` (split on every occurrence; `"".split(c) == [""]`). -/
def pySplit (c : Char) : Str → List Str
  | [] => [[]]
  | x :: xs =>
    let rest := pySplit c xs
    if x == c then [] :: rest
    else (x :: rest.headD []) :: rest.tail

/-- Python `s.split(c, 1)` (split at the first occurrence only). -/
def pySplit1 (c : Char) : Str → List Str
  | [] => [[]]
  | x :: xs =>
    if x == c then [[], xs]
    else
      match pySplit1 c xs with
      | [one] => [x :: one]
      | [b, a] => [x :: b, a]
      | other => other

/-- Python `s.rsplit(c, 1)` (split at the last occurrence only). -/
def pyRsplit1 (c : Char) : Str → List Str
  | [] => [[]]
  | x :: xs =>
    match pyRsplit1 c xs with
    | [one] => if x == c then [[], one] else [x :: one]
    | [b, a] => [x :: b, a]
    | other => other

/-- Python `s.replace(a, b)` for single characters. -/
def pyReplaceChar (a b : Char) (s : Str) : Str :=
  s.map (fun c => if c == a then b else c)

/-- `".".join l` style intercalation with a single-character separator. -/
def intercalateC (c : Char) : List Str → Str
  | [] => []
  | [x] => x
  | x :: xs => x ++ c :: intercalateC c xs

/-- Python `s.splitlines()` for strings whose line breaks are `'\n'`. -/
def pySplitlines (s : Str) : List Str :=
  if s = [] then []
  else
    let parts := pySplit '\n' s
    if parts.getLastD [] = [] then parts.dropLast else parts

/-- `get_major_version(version)`: `version.rsplit(".", 1)[0]`. -/
def get_major_version (version : Str) : Str :=
  (pyRsplit1 '.' version).headD []

/-- `get_version_grade(version)`: `"final"` when there is no `-`;
otherwise inspects `version.split("-")[1]`; an unknown suffix raises
`RuntimeError` (modelled as `.error`). -/
def get_version_grade (version : Str) : Except Str Str :=
  if containsChar '-' version = false then .ok (str "final")
  else
    let version_suffix := ((pySplit '-' version).get? 1).getD []
    if (str "beta").isPrefixOf version_suffix then .ok (str "beta")
    else if (str "rc").isPrefixOf version_suffix then .ok (str "rc")
    else .error (str "Unknown version suffix: " ++ version_suffix)

/-- `get_snap_release_channel(version)`; a `RuntimeError` raised by
`get_version_grade` propagates. -/
def get_snap_release_channel (version : Str) : Except Str Str :=
  let major_version := get_major_version version
  match get_version_grade version with
  | .error e => .error e
  | .ok version_grade =>
    if version_grade = str "final" then .ok (major_version ++ str "/stable")
    else if version_grade = str "rc" then .ok (major_version ++ str "/candidate")
    else if version_grade = str "beta" then .ok (major_version ++ str "/beta")
    else .error (str "Unknown version grade: " ++ version_grade)

/-- One entry of the `error_list` of a snap-store JSON error body.
`extra_permission` models `error["extra"]["permission"]`: `none` when the
`extra`/`permission` keys are absent (accessing them raises `KeyError`). -/
structure ApiError where
  code : Option Str
  extra_permission : Option Str
  deriving DecidableEq

/-- A parsed snap-store HTTP response: status code, raw body text, and the
`error_list` of the JSON body (`res.json().get("error_list", [])`). -/
structure HttpResponse where
  status_code : Nat
  text : Str
  error_list : List ApiError
  deriving DecidableEq

/-- `get_macaroon_refresh_help()`. -/
def get_macaroon_refresh_help : Str :=
  str "  Please refresh it:\n    rm -f release.macaroon\n    snapcraft export-login --snaps maas,maas-test-db \\\n        --acls package_release,package_access release.macaroon"

/-- The `for error in result.get("error_list", [])` loop of
`get_macaroon_auth_error`: `.ok (some m)` when a recognized code replaced
the error message and broke the loop, `.ok none` when the loop fell
through, `.error ()` for the `KeyError` on a `macaroon-permission-required`
entry without `extra["permission"]`. -/
def findMacaroonError (snap_name : Str) : List ApiError → Except Unit (Option Str)
  | [] => .ok none
  | error :: rest =>
    if error.code = some (str "macaroon-needs-refresh") then
      .ok (some (str "Macaroon has expired.\n" ++ get_macaroon_refresh_help))
    else if error.code = some (str "macaroon-permission-required") then
      match error.extra_permission with
      | some missing_permission =>
        .ok (some (str "Macaroon doesn't have " ++ missing_permission
              ++ str " for " ++ snap_name ++ str ".\n"
              ++ get_macaroon_refresh_help))
      | none => .error ()
    else findMacaroonError snap_name rest

/-- `get_macaroon_auth_error(res, snap_name)`: `None` for status 200/404;
for 401/403 the error list is scanned for known macaroon error codes,
falling back to the raw body `res.text`; other statuses return `res.text`. -/
def get_macaroon_auth_error (res : HttpResponse) (snap_name : Str) :
    Except Unit (Option Str) :=
  if res.status_code = 200 ∨ res.status_code = 404 then .ok none
  else if res.status_code = 401 ∨ res.status_code = 403 then
    match findMacaroonError snap_name res.error_list with
    | .error () => .error ()
    | .ok (some error_message) => .ok (some error_message)
    | .ok none => .ok (some res.text)
  else .ok (some res.text)

/-- `SnapTrack.check`, as a function of the snap-store response to the
`snap-track-update` POST: `(res.status_code == 200, auth_error)`. -/
def SnapTrack_check (res : HttpResponse) (snap_name : Str) :
    Except Unit (Bool × Option Str) := do
  let auth_error ← get_macaroon_auth_error res snap_name
  .ok (decide (res.status_code = 200), auth_error)

/-- The `release_branch_name` computed by `CommitInRemoteBranch.check`:
the major version, except that versions containing `beta` or `alpha`
are released from `master`. -/
def CommitInRemoteBranch_branch_name (version major_version : Str) : Str :=
  if containsSub (str "beta") version || containsSub (str "alpha") version
  then str "master"
  else major_version

/-- `CommitInRemoteBranch.check`, as a function of the official remote name
and of the `(remote, branch)` pairs containing `HEAD`. -/
def CommitInRemoteBranch_check (version major_version official_maas_remote : Str)
    (remote_branches : List (Str × Str)) : Bool × Option Str :=
  let release_branch_name := CommitInRemoteBranch_branch_name version major_version
  if remote_branches.any
      (fun p => p.1 == official_maas_remote && p.2 == release_branch_name)
  then (true, none)
  else (false, some (str "Current HEAD is not in " ++ official_maas_remote
        ++ str "/" ++ release_branch_name))

/-- `PackageBuilt.check`, as a function of the glob result for
`build_pkg/maas_<version>-*-g.<short_rev>.orig.tar.gz`: an empty result is
a failure, the `[orig_tgz] = tar_gzs` destructuring of a longer result
raises `ValueError` (modelled as `.error ()`). -/
def PackageBuilt_check (tar_gzs : List Str) : Except Unit (Bool × Option Str) :=
  if tar_gzs.length = 0 then
    .ok (false, some (str "No orig.tar.gz could be found for the current revision"))
  else
    match tar_gzs with
    | [_orig_tgz] => .ok (true, none)
    | _ => .error ()

/-- `BUILD_ARCHS`. -/
def BUILD_ARCHS : List Str := [str "amd64", str "arm64", str "ppc64el", str "s390x"]

/-- A published binary as used by `MAASPackagePublished.check`. -/
structure PublishedBinary where
  distro_arch_series_link : Str
  binary_package_version : Str
  deriving DecidableEq

/-- `MAASPackagePublished._check_version(package_version)`: strips an epoch
(`package_version.split(":", 1)[-1]`), splits on `-`, and evaluates
`version_parts[0] == expected and version_parts[2] == f"g.{rev}"`; the
short-circuiting `and` means `version_parts[2]` (an `IndexError`, modelled
as `.error ()`, when fewer than three parts exist) is only evaluated when
the first comparison succeeded. -/
def MAASPackagePublished_check_version (version git_short_rev package_version : Str) :
    Except Unit Bool :=
  let expected_package_version := pyReplaceChar '-' '~' version
  let package_version' :=
    if containsChar ':' package_version then (pySplit1 ':' package_version).getLastD []
    else package_version
  let version_parts := pySplit '-' package_version'
  if version_parts.headD [] = expected_package_version then
    match version_parts.get? 2 with
    | some p2 => .ok (decide (p2 = str "g." ++ git_short_rev))
    | none => .error ()
  else .ok false

/-- The architecture of a published binary:
`binary.distro_arch_series_link.split("/")[-1]`. -/
def binaryArch (binary : PublishedBinary) : Str :=
  (pySplit '/' binary.distro_arch_series_link).getLastD []

/-- The loop over `binaries` in `MAASPackagePublished.check` collecting
`published_architectures`; `_check_version` may raise. -/
def collectPublishedArchs (version git_short_rev : Str) :
    List PublishedBinary → Except Unit (List Str)
  | [] => .ok []
  | binary :: rest => do
    let archs ← collectPublishedArchs version git_short_rev rest
    let ok ← MAASPackagePublished_check_version version git_short_rev
      binary.binary_package_version
    if ok && !(archs.contains (binaryArch binary)) then
      .ok (binaryArch binary :: archs)
    else .ok archs

/-- `MAASPackagePublished.check`, as a function of the PPA lookup outcome,
the published source versions and the published binaries. The
`[package] = sources` destructuring raises `ValueError` (`.error ()`)
when more than one source is published. -/
def MAASPackagePublished_check (ppa_found : Bool) (ppa_owner_name ppa_name : Str)
    (version git_short_rev : Str) (sources : List Str)
    (binaries : List PublishedBinary) : Except Unit (Bool × Option Str) :=
  if !ppa_found then
    .ok (false, some (str "ppa:" ++ ppa_owner_name ++ str "/" ++ ppa_name
          ++ str " couldn't be found."))
  else if sources.isEmpty then
    .ok (false, some (str "Source package hasn't been published or uploaded yet."))
  else
    match sources with
    | [package] => do
      let ok ← MAASPackagePublished_check_version version git_short_rev package
      if !ok then
        let expected := pyReplaceChar '-' '~' version
        .ok (false, some (str "Currently published source version is " ++ package
              ++ str ". Expected " ++ expected))
      else if binaries.isEmpty then
        .ok (false, some (str "Binary packages haven't been published yet."))
      else do
        let published_architectures ← collectPublishedArchs version git_short_rev binaries
        let non_published_architectures :=
          BUILD_ARCHS.filter (fun a => !(published_architectures.contains a))
        if non_published_architectures.isEmpty then .ok (true, none)
        else
          .ok (false, some (str "Binary package hasn't been published for: "
                ++ intercalateC ',' non_published_architectures))
    | _ => .error ()

/-- The git oracle: `tag_commit t` models the stripped stdout of
`git rev-list -n 1 tags/<t>` (empty on failure), `resolve_short r` the
stripped stdout of `git rev-parse --short <r>` (empty on failure). -/
structure GitRepo where
  tag_commit : Str → Str
  resolve_short : Str → Str

/-- `get_tag_commit(tag_name)`. -/
def get_tag_commit (g : GitRepo) (tag_name : Str) : Str := g.tag_commit tag_name

/-- `get_git_short_rev(commit)`. -/
def get_git_short_rev (g : GitRepo) (commit : Str) : Str := g.resolve_short commit

/-- `ReleaseTagged.check`, as a function of the git oracle, the preparer
fields and the `(remote, branch)` pairs containing the tag; the script's
local `tagged_revision` is `get_git_short_rev g (get_tag_commit g version)`
and its `tag_name` is `version`. -/
def ReleaseTagged_check (g : GitRepo) (version git_short_rev official_maas_remote : Str)
    (remote_branches : List (Str × Str)) : Bool × Option Str :=
  if get_git_short_rev g (get_tag_commit g version) = get_git_short_rev g version then
    (false, some (str "The " ++ version ++ str " isn't an annotated tag"))
  else if get_git_short_rev g (get_tag_commit g version) = [] then
    (false, some (str "Release hasn't been tagged yet."))
  else if get_git_short_rev g (get_tag_commit g version) ≠ git_short_rev then
    (false, some (version ++ str " points to "
      ++ get_git_short_rev g (get_tag_commit g version)
      ++ str " instead of " ++ git_short_rev))
  else if !((remote_branches.map Prod.fst).contains official_maas_remote) then
    (false, some (version ++ str " tag is not pushed to " ++ official_maas_remote))
  else (true, none)

/-- The glyph `ReleasePreparer.run` prints after a step: a check mark on
success, a large red circle on failure. -/
def glyph (success : Bool) : Str := if success then str "✓" else str "🔴"

/-- The lines `ReleasePreparer.run` prints for one step, given the step's
title and the `(succeeded, message)` pair its `check()` returned: the
title/glyph line, then (`if message:`, so neither for `None` nor for an
empty string) each message line indented by two spaces. -/
def run_step_lines (step : Str × Bool × Option Str) : List Str :=
  let (title, success, message) := step
  (title ++ str ": " ++ glyph success) ::
    (match message with
     | some m => if m = [] then [] else (pySplitlines m).map (fun l => str "  " ++ l)
     | none => [])

/-- `ReleasePreparer.run`, as a function of each step's title and check
result: the full list of printed lines, and the value returned (`none`
when all checks passed, the failure summary string otherwise). -/
def ReleasePreparer_run (steps : List (Str × Bool × Option Str)) :
    List Str × Option Str :=
  let all_good := steps.all (fun step => step.2.1)
  ((steps.map run_step_lines).flatten
     ++ [[]]
     ++ (if all_good then [str "All checks PASSED!"] else []),
   if all_good then none
   else some (str "Some checks FAILED, proceed with caution"))

/-- The argument handling of `create_parser()`/`main()`: a parser with the
single positional argument `version` and no validation of its value.
`argparse` exits (modelled as `.error ()`) when no positional argument or
more than one is given, or when the lone argument is read as an option
(a leading `-`); any other single argument is returned as the version. -/
def parse_args (argv : List Str) : Except Unit Str :=
  match argv with
  | [version] => if version.headD ' ' == '-' then .error () else .ok version
  | _ => .error ()

/-- One-or-more repetition of a character class: `some` of the remainder
when the head matches, consuming the maximal run. -/
def munch1 (p : Char → Bool) (s : Str) : Option Str :=
  match s with
  | [] => none
  | c :: _ => if p c then some (s.dropWhile p) else none

def isDigitChar (c : Char) : Bool := '0' ≤ c && c ≤ '9'

/-- The version pattern of the `release-prepare` shell script
(`^[2-9]+\.[0-9]+\.[0-9]+((a|b|rc)[0-9]+)?$`), the script's rendering of
`<MAJOR>.<MINOR>.<MICRO>(a<num>|b<num>|rc<num>)`. -/
def matches_release_pattern (s : Str) : Bool :=
  (Option.isSome <| do
    let s ← munch1 (fun c => '2' ≤ c && c ≤ '9') s
    let s ← match s with
      | '.' :: rest => some rest
      | _ => none
    let s ← munch1 isDigitChar s
    let s ← match s with
      | '.' :: rest => some rest
      | _ => none
    let s ← munch1 isDigitChar s
    match s with
    | [] => some ()
    | _ => do
      let s ← if (str "rc").isPrefixOf s then some (s.drop 2)
        else if (str "a").isPrefixOf s then some (s.drop 1)
        else if (str "b").isPrefixOf s then some (s.drop 1)
        else none
      let s ← munch1 isDigitChar s
      if s = [] then some () else none)

/-- The version validation of the `release-prepare` shell script: an empty
version or one that does not match the pattern is rejected with a usage
error before any work is done. -/
def release_prepare_accepts_version (version : Str) : Bool :=
  !version.isEmpty && matches_release_pattern version

/-- Modelled from the spec: `derive_major_version(version) -> string`
returns "version truncated to its first two dot-separated components". -/
def spec_first_two_components (version : Str) : Str :=
  intercalateC '.' ((pySplit '.' version).take 2)

/-- All dot-separated components but the last (the whole list when there is
only one): what `rsplit(".", 1)[0]` keeps. -/
def dropLastComponent (l : List Str) : List Str :=
  if l.length ≤ 1 then l else l.dropLast

lemma pySplit_ne_nil (c : Char) (v : Str) : pySplit c v ≠ [] := by
  cases v with
  | nil => simp [pySplit]
  | cons x xs =>
    simp only [pySplit]
    split <;> simp

lemma pySplit_head (c : Char) (v : Str) : (pySplit c v).headD [] = takeUntil c v := by
  induction v with
  | nil => simp [pySplit, takeUntil]
  | cons x xs ih =>
    rcases hs : pySplit c xs with _ | ⟨r, rs⟩
    · exact absurd hs (pySplit_ne_nil c xs)
    · rw [hs] at ih
      simp only [List.headD_cons] at ih
      simp only [pySplit, takeUntil, hs]
      cases h : x == c with
      | true => simp
      | false => simp [ih]

lemma afterFirst_eq_none_iff (c : Char) (v : Str) :
    afterFirst c v = none ↔ containsChar c v = false := by
  induction v with
  | nil => simp [afterFirst, containsChar]
  | cons x xs ih =>
    simp only [afterFirst, containsChar]
    cases h : x == c with
    | true => simp
    | false => simp [ih]

lemma pySplit_get1 (c : Char) (v : Str) :
    (pySplit c v).get? 1 = (afterFirst c v).map (takeUntil c) := by
  induction v with
  | nil => simp [pySplit, afterFirst]
  | cons x xs ih =>
    rcases hs : pySplit c xs with _ | ⟨r, rs⟩
    · exact absurd hs (pySplit_ne_nil c xs)
    · have hr : r = takeUntil c xs := by
        have := pySplit_head c xs
        rw [hs] at this
        simpa using this
      simp only [pySplit, afterFirst, hs]
      cases h : x == c with
      | true => simp [hr]
      | false =>
        rw [hs] at ih
        simpa using ih

lemma isPrefixOf_takeUntil (c : Char) (p t : Str) (hp : ∀ a ∈ p, (a == c) = false) :
    p.isPrefixOf (takeUntil c t) = p.isPrefixOf t := by
  induction p generalizing t with
  | nil => simp
  | cons a as ih =>
    cases t with
    | nil => simp [takeUntil]
    | cons b bs =>
      simp only [takeUntil]
      cases h : b == c with
      | true =>
        have hb : b = c := by simpa using h
        have ha : (a == c) = false := hp a (by simp)
        have hab : (a == b) = false := by
          subst hb
          exact ha
        simp [List.isPrefixOf, hab]
      | false =>
        simp only [List.isPrefixOf]
        rw [ih bs (fun x hx => hp x (by simp [hx]))]

lemma containsChar_false_pySplit (c : Char) (v : Str)
    (h : containsChar c v = false) : pySplit c v = [v] := by
  induction v with
  | nil => simp [pySplit]
  | cons x xs ih =>
    simp only [containsChar, Bool.or_eq_false_iff] at h
    simp [pySplit, h.1, ih h.2]

lemma two_le_length_pySplit (c : Char) (v : Str)
    (h : containsChar c v = true) : 2 ≤ (pySplit c v).length := by
  induction v with
  | nil => simp [containsChar] at h
  | cons x xs ih =>
    have hne := pySplit_ne_nil c xs
    have hlen : 1 ≤ (pySplit c xs).length := by
      cases hs : pySplit c xs with
      | nil => exact absurd hs hne
      | cons r rs => simp
    simp only [containsChar] at h
    cases hx : x == c with
    | true =>
      simp only [pySplit, hx, if_true]
      simp
      omega
    | false =>
      rw [hx] at h
      simp only [Bool.false_or] at h
      have := ih h
      simp only [pySplit, hx]
      simp
      omega

lemma intercalateC_cons_cons (c x : Char) (h : Str) (w : List Str) :
    intercalateC c ((x :: h) :: w) = x :: intercalateC c (h :: w) := by
  cases w <;> simp [intercalateC]

lemma cons_getLast?_getD {α : Type} (t1 : α) (ts : List α) (d : α) :
    (t1 :: ts).getLast?.getD d = ts.getLast?.getD t1 := by
  induction ts generalizing t1 d with
  | nil => simp
  | cons a as ih =>
    rw [List.getLast?_cons_cons, ih a d, ih a t1]

lemma pyRsplit1_eq (c : Char) (v : Str) :
    pyRsplit1 c v =
      if containsChar c v then
        [intercalateC c ((pySplit c v).dropLast), (pySplit c v).getLastD []]
      else [v] := by
  induction v with
  | nil => simp [pyRsplit1, containsChar]
  | cons x xs ih =>
    by_cases hc : containsChar c xs
    · have h2 := two_le_length_pySplit c xs hc
      rcases hs : pySplit c xs with _ | ⟨h1, _ | ⟨t1, ts⟩⟩
      · exact absurd hs (pySplit_ne_nil c xs)
      · rw [hs] at h2; simp at h2
      · have hr : pyRsplit1 c xs =
            [intercalateC c ((pySplit c xs).dropLast), (pySplit c xs).getLastD []] := by
          rw [ih, if_pos hc]
        rw [hs] at hr
        cases hx : x == c with
        | true =>
          have hxc : x = c := by simpa using hx
          simp only [pyRsplit1, hr, pySplit, hs, hx, if_true]
          have hcont : containsChar c (x :: xs) = true := by
            simp [containsChar, hx]
          rw [if_pos hcont]
          simp only [List.dropLast, List.getLastD_cons]
          simp [intercalateC, hxc]
        | false =>
          have hcont : containsChar c (x :: xs) = true := by
            simp [containsChar, hc]
          simp only [pyRsplit1, hr, pySplit, hs, hx, if_false]
          rw [if_pos hcont]
          simp only [List.headD_cons, List.tail_cons, List.dropLast,
            List.getLastD_cons]
          simp [intercalateC_cons_cons]
          exact (cons_getLast?_getD t1 ts []).symm
    · have hs := containsChar_false_pySplit c xs (by simpa using hc)
      have hr : pyRsplit1 c xs = [xs] := by
        rw [ih, if_neg hc]
      cases hx : x == c with
      | true =>
        have hcont : containsChar c (x :: xs) = true := by
          simp [containsChar, hx]
        simp [pyRsplit1, hr, pySplit, hs, hx, hcont, intercalateC]
      | false =>
        have hcont : containsChar c (x :: xs) = false := by
          simp [containsChar, hx]
          simpa using hc
        simp [pyRsplit1, hr, pySplit, hs, hx, hcont]

lemma get_major_version_eq (version : Str) :
    get_major_version version =
      intercalateC '.' (dropLastComponent (pySplit '.' version)) := by
  unfold get_major_version
  rw [pyRsplit1_eq]
  by_cases hc : containsChar '.' version = true
  · rw [if_pos hc]
    have h2 := two_le_length_pySplit '.' version hc
    simp only [List.headD_cons]
    unfold dropLastComponent
    rw [if_neg (by omega)]
  · rw [if_neg hc]
    have hs := containsChar_false_pySplit '.' version (by simpa using hc)
    rw [hs]
    simp [dropLastComponent, intercalateC]

lemma beta_not_isPrefixOf_of_rc (suffix : Str)
    (h : (str "rc").isPrefixOf suffix = true) :
    (str "beta").isPrefixOf suffix = false := by
  cases suffix with
  | nil => simp [str, List.isPrefixOf] at h
  | cons s ss =>
    simp only [str, List.isPrefixOf] at h ⊢
    have hs : ('r' == s) = true := by
      cases hrs : 'r' == s with
      | true => rfl
      | false => rw [hrs] at h; simp at h
    have : s = 'r' := by
      have := (beq_iff_eq.mp hs).symm
      exact this
    subst this
    simp

/-- C2 counterexample: `get_major_version` drops only the LAST dot-separated
component (`rsplit(".", 1)[0]`), so on a four-component version it returns
three components, not the first two, and on a two-component version it
returns one component. -/
theorem C2_counterexample :
    get_major_version (str "1.2.3.4") = str "1.2.3" ∧
    spec_first_two_components (str "1.2.3.4") = str "1.2" ∧
    get_major_version (str "1.2.3.4") ≠ spec_first_two_components (str "1.2.3.4") ∧
    get_major_version (str "3.1") = str "3" ∧
    spec_first_two_components (str "3.1") = str "3.1" ∧
    get_major_version (str "3.1") ≠ spec_first_two_components (str "3.1") := by
  decide

/-- C2 (amended): `get_major_version` returns the version with its last
dot-separated component removed (the whole version when it has a single
component); this coincides with truncation to the first two dot-separated
components exactly on three-component versions, and in particular
`get_major_version("3.1.0") = "3.1"` and
`get_major_version("3.1.0-beta1") = "3.1"`. -/
theorem C2_major_version_drops_last_component (version : Str) :
    get_major_version (str "3.1.0") = str "3.1" ∧
    get_major_version (str "3.1.0-beta1") = str "3.1" ∧
    get_major_version version =
      intercalateC '.' (dropLastComponent (pySplit '.' version)) ∧
    ((pySplit '.' version).length = 3 →
      get_major_version version = spec_first_two_components version) := by
  refine ⟨by decide, by decide, get_major_version_eq version, ?_⟩
  intro h3
  rw [get_major_version_eq version]
  unfold dropLastComponent spec_first_two_components
  rw [if_neg (by omega), List.dropLast_eq_take, h3]

/-- Witness for the amended C2 theorem at the concrete version `"3.1.0"`. -/
theorem C2_major_version_witness :
    (pySplit '.' (str "3.1.0")).length = 3 ∧
    get_major_version (str "3.1.0") = spec_first_two_components (str "3.1.0") :=
  ⟨by decide, (C2_major_version_drops_last_component (str "3.1.0")).2.2.2 (by decide)⟩

/-- C6: `get_version_grade` returns `"final"` for every version without a
`-` separator; for every version whose suffix after the first `-` starts
with `"beta"` it returns `"beta"`; for every version whose suffix starts
with `"rc"` it returns `"rc"`; for every other suffix it raises a
`RuntimeError` (modelled as `.error`) instead of returning. -/
theorem C6_version_grade (version suffix : Str) :
    (containsChar '-' version = false →
      get_version_grade version = .ok (str "final")) ∧
    (afterFirst '-' version = some suffix →
      ((str "beta").isPrefixOf suffix = true →
        get_version_grade version = .ok (str "beta")) ∧
      ((str "rc").isPrefixOf suffix = true →
        get_version_grade version = .ok (str "rc")) ∧
      ((str "beta").isPrefixOf suffix = false →
        (str "rc").isPrefixOf suffix = false →
        ∃ e, get_version_grade version = .error e)) := by
  constructor
  · intro h
    unfold get_version_grade
    rw [if_pos h]
  · intro hA
    have hcont : containsChar '-' version = true := by
      cases hcc : containsChar '-' version with
      | true => rfl
      | false =>
        rw [(afterFirst_eq_none_iff '-' version).mpr hcc] at hA
        exact absurd hA (by simp)
    have hget : ((pySplit '-' version).get? 1).getD [] = takeUntil '-' suffix := by
      rw [pySplit_get1, hA]
      rfl
    have hbeta := isPrefixOf_takeUntil '-' (str "beta") suffix (by decide)
    have hrc := isPrefixOf_takeUntil '-' (str "rc") suffix (by decide)
    refine ⟨?_, ?_, ?_⟩
    · intro hB
      unfold get_version_grade
      rw [if_neg (by simp [hcont])]
      simp only [hget, hbeta, hB]
      rfl
    · intro hR
      have hBf : (str "beta").isPrefixOf suffix = false :=
        beta_not_isPrefixOf_of_rc suffix hR
      unfold get_version_grade
      rw [if_neg (by simp [hcont])]
      simp only [hget, hbeta, hrc, hBf, hR]
      rfl
    · intro hBf hRf
      unfold get_version_grade
      rw [if_neg (by simp [hcont])]
      simp only [hget, hbeta, hrc, hBf, hRf]
      exact ⟨_, rfl⟩

/-- Witness for C6 at the concrete versions `"3.1.0"`, `"3.1.0-beta3"`,
`"3.1.0-rc1"` and `"3.1.0-x1"`. -/
theorem C6_version_grade_witness :
    get_version_grade (str "3.1.0") = .ok (str "final") ∧
    get_version_grade (str "3.1.0-beta3") = .ok (str "beta") ∧
    get_version_grade (str "3.1.0-rc1") = .ok (str "rc") ∧
    (∃ e, get_version_grade (str "3.1.0-x1") = .error e) :=
  ⟨(C6_version_grade (str "3.1.0") []).1 (by decide),
   ((C6_version_grade (str "3.1.0-beta3") (str "beta3")).2 (by decide)).1 (by decide),
   ((C6_version_grade (str "3.1.0-rc1") (str "rc1")).2 (by decide)).2.1 (by decide),
   ((C6_version_grade (str "3.1.0-x1") (str "x1")).2 (by decide)).2.2
     (by decide) (by decide)⟩

/-- C7: `get_snap_release_channel` maps a version of grade `"final"` to
`<major>/stable`, grade `"rc"` to `<major>/candidate` and grade `"beta"`
to `<major>/beta` (in particular major version `"3.1"` gives `"3.1/stable"`,
`"3.1/candidate"` and `"3.1/beta"`); when the grade computation raises
(any grade outside the three recognized ones), the error propagates and no
channel is returned. -/
theorem C7_snap_release_channel (version e : Str) :
    (get_version_grade version = .ok (str "final") →
      get_snap_release_channel version =
        .ok (get_major_version version ++ str "/stable")) ∧
    (get_version_grade version = .ok (str "rc") →
      get_snap_release_channel version =
        .ok (get_major_version version ++ str "/candidate")) ∧
    (get_version_grade version = .ok (str "beta") →
      get_snap_release_channel version =
        .ok (get_major_version version ++ str "/beta")) ∧
    (get_version_grade version = .error e →
      get_snap_release_channel version = .error e) ∧
    get_snap_release_channel (str "3.1.0") = .ok (str "3.1/stable") ∧
    get_snap_release_channel (str "3.1.0-rc1") = .ok (str "3.1/candidate") ∧
    get_snap_release_channel (str "3.1.0-beta1") = .ok (str "3.1/beta") := by
  refine ⟨?_, ?_, ?_, ?_, by decide, by decide, by decide⟩ <;>
    (intro h; unfold get_snap_release_channel; simp only [h]) <;> try rfl

/-- Witness for C7 at concrete versions of each grade and one with an
unknown suffix. -/
theorem C7_snap_release_channel_witness :
    get_snap_release_channel (str "3.1.0") =
      .ok (get_major_version (str "3.1.0") ++ str "/stable") ∧
    get_snap_release_channel (str "3.1.0-rc1") =
      .ok (get_major_version (str "3.1.0-rc1") ++ str "/candidate") ∧
    get_snap_release_channel (str "3.1.0-beta1") =
      .ok (get_major_version (str "3.1.0-beta1") ++ str "/beta") ∧
    get_snap_release_channel (str "3.1.0-x1") =
      .error (str "Unknown version suffix: x1") :=
  ⟨(C7_snap_release_channel (str "3.1.0") []).1 (by decide),
   (C7_snap_release_channel (str "3.1.0-rc1") []).2.1 (by decide),
   (C7_snap_release_channel (str "3.1.0-beta1") []).2.2.1 (by decide),
   (C7_snap_release_channel (str "3.1.0-x1")
      (str "Unknown version suffix: x1")).2.2.2.1 (by decide)⟩

/-- C8: for the input version `"3.1.0-beta3"` the derived major version is
`"3.1"`, the grade is `"beta"`, the channel is `"3.1/beta"`, and
`CommitInRemoteBranch` selects `"master"` (not `"3.1"`) as the expected
release branch, because the version contains a beta qualifier. -/
theorem C8_end_to_end_beta3 :
    get_major_version (str "3.1.0-beta3") = str "3.1" ∧
    get_version_grade (str "3.1.0-beta3") = .ok (str "beta") ∧
    get_snap_release_channel (str "3.1.0-beta3") = .ok (str "3.1/beta") ∧
    CommitInRemoteBranch_branch_name (str "3.1.0-beta3")
      (get_major_version (str "3.1.0-beta3")) = str "master" ∧
    CommitInRemoteBranch_branch_name (str "3.1.0-beta3")
      (get_major_version (str "3.1.0-beta3")) ≠ str "3.1" ∧
    CommitInRemoteBranch_check (str "3.1.0-beta3") (str "3.1") (str "origin")
      [(str "origin", str "master")] = (true, none) ∧
    (CommitInRemoteBranch_check (str "3.1.0-beta3") (str "3.1") (str "origin")
      [(str "origin", str "3.1")]).1 = false := by
  decide

/-- C1 counterexample: with two matching tarballs, `PackageBuilt.check`
raises `ValueError` (from `[orig_tgz] = tar_gzs`), it does not return a
failed `(False, message)` result as the claim states. -/
theorem C1_counterexample :
    PackageBuilt_check [str "maas_3.1.0-1-g.abc.orig.tar.gz",
      str "maas_3.1.0-2-g.abc.orig.tar.gz"] = .error () := by
  decide

/-- C1 (amended): `PackageBuilt.check` returns a failed result with a
message when zero files match, passes when exactly one file matches, and
raises an uncaught `ValueError` (rather than returning a failed result)
when more than one file matches. -/
theorem C1_package_built (tar_gzs : List Str) :
    (tar_gzs.length = 0 → PackageBuilt_check tar_gzs =
      .ok (false, some (str "No orig.tar.gz could be found for the current revision"))) ∧
    (tar_gzs.length = 1 → PackageBuilt_check tar_gzs = .ok (true, none)) ∧
    (2 ≤ tar_gzs.length → PackageBuilt_check tar_gzs = .error ()) := by
  rcases tar_gzs with _ | ⟨a, _ | ⟨b, rest⟩⟩
  · exact ⟨fun _ => rfl, by intro h; simp at h, by intro h; simp at h⟩
  · exact ⟨by intro h; simp at h, fun _ => rfl, by intro h; simp at h⟩
  · refine ⟨by intro h; simp at h, by intro h; simp at h, fun _ => rfl⟩

/-- Witness for the amended C1 theorem at glob results of length 0, 1, 2. -/
theorem C1_package_built_witness :
    PackageBuilt_check [] =
      .ok (false, some (str "No orig.tar.gz could be found for the current revision")) ∧
    PackageBuilt_check [str "maas_3.1.0-1-g.abc.orig.tar.gz"] = .ok (true, none) ∧
    PackageBuilt_check [str "x.orig.tar.gz", str "y.orig.tar.gz"] = .error () :=
  ⟨(C1_package_built []).1 rfl,
   (C1_package_built [str "maas_3.1.0-1-g.abc.orig.tar.gz"]).2.1 rfl,
   (C1_package_built [str "x.orig.tar.gz", str "y.orig.tar.gz"]).2.2 (by decide)⟩

/-- C3: `ReleasePreparer.run` prints a title/glyph line for every step in
the sequence (it never stops early after a failure), prints
`"All checks PASSED!"` when every check passed, and otherwise returns a
non-empty failure-summary string. -/
theorem C3_run_exhaustive (steps : List (Str × Bool × Option Str)) :
    (∀ s ∈ steps, (s.1 ++ str ": " ++ glyph s.2.1) ∈ (ReleasePreparer_run steps).1) ∧
    (steps.all (fun s => s.2.1) = true →
      str "All checks PASSED!" ∈ (ReleasePreparer_run steps).1 ∧
      (ReleasePreparer_run steps).2 = none) ∧
    (steps.all (fun s => s.2.1) = false →
      ∃ m, (ReleasePreparer_run steps).2 = some m ∧ m ≠ []) := by
  refine ⟨?_, ?_, ?_⟩
  · intro s hs
    unfold ReleasePreparer_run
    simp only
    apply List.mem_append_left
    apply List.mem_append_left
    apply List.mem_flatten.mpr
    refine ⟨run_step_lines s, List.mem_map_of_mem _ hs, ?_⟩
    obtain ⟨title, success, message⟩ := s
    simp [run_step_lines]
  · intro hall
    unfold ReleasePreparer_run
    simp only [hall, if_true]
    simp
  · intro hall
    unfold ReleasePreparer_run
    simp only [hall]
    exact ⟨_, rfl, by decide⟩

/-- Witness for C3 with a one-step all-passing run and a one-step failing
run. -/
theorem C3_run_exhaustive_witness :
    ((str "step A" ++ str ": " ++ glyph true) ∈
      (ReleasePreparer_run [(str "step A", true, none)]).1) ∧
    (str "All checks PASSED!" ∈ (ReleasePreparer_run [(str "step A", true, none)]).1 ∧
      (ReleasePreparer_run [(str "step A", true, none)]).2 = none) ∧
    (∃ m, (ReleasePreparer_run [(str "step B", false, some (str "boom"))]).2 = some m ∧
      m ≠ []) :=
  ⟨(C3_run_exhaustive [(str "step A", true, none)]).1 (str "step A", true, none)
     (by simp),
   (C3_run_exhaustive [(str "step A", true, none)]).2.1 (by decide),
   (C3_run_exhaustive [(str "step B", false, some (str "boom"))]).2.2 (by decide)⟩

lemma findMacaroonError_help (snap_name : Str) (l : List ApiError)
    (hwf : ∀ e ∈ l, e.code = some (str "macaroon-permission-required") →
      e.extra_permission ≠ none)
    (hex : ∃ e ∈ l, e.code = some (str "macaroon-needs-refresh")) :
    ∃ m, findMacaroonError snap_name l = .ok (some m) ∧
      get_macaroon_refresh_help <:+: m := by
  induction l with
  | nil => simp at hex
  | cons e rest ih =>
    by_cases h1 : e.code = some (str "macaroon-needs-refresh")
    · refine ⟨str "Macaroon has expired.\n" ++ get_macaroon_refresh_help, ?_, ?_⟩
      · unfold findMacaroonError
        rw [if_pos h1]
      · exact ⟨str "Macaroon has expired.\n", [], by simp⟩
    · by_cases h2 : e.code = some (str "macaroon-permission-required")
      · have hperm := hwf e (by simp) h2
        rcases hp : e.extra_permission with _ | p
        · exact absurd hp hperm
        · refine ⟨str "Macaroon doesn't have " ++ p ++ str " for " ++ snap_name
            ++ str ".\n" ++ get_macaroon_refresh_help, ?_, ?_⟩
          · unfold findMacaroonError
            rw [if_neg h1, if_pos h2, hp]
          · exact ⟨str "Macaroon doesn't have " ++ p ++ str " for "
              ++ snap_name ++ str ".\n", [], by simp⟩
      · have hex' : ∃ x ∈ rest, x.code = some (str "macaroon-needs-refresh") := by
          rcases hex with ⟨x, hx, hcx⟩
          rcases List.mem_cons.mp hx with hxe | hxr
          · exact absurd (hxe ▸ hcx) h1
          · exact ⟨x, hxr, hcx⟩
        rcases ih (fun x hx hcx => hwf x (by simp [hx]) hcx) hex' with ⟨m, hm, hinf⟩
        refine ⟨m, ?_, hinf⟩
        unfold findMacaroonError
        rw [if_neg h1, if_neg h2]
        exact hm

/-- C4: `SnapTrack.check` passes iff the snap-store API responded 200
(and at 200 it returns `(True, None)`); for every 403 response whose
`error_list` (with well-formed `macaroon-permission-required` entries)
contains an entry with code `macaroon-needs-refresh`, the failure message
contains the macaroon refresh instructions; a 403 response with a
`macaroon-permission-required` entry yields a failure message naming the
missing permission together with the refresh instructions. -/
theorem C4_snap_track (res : HttpResponse) (snap_name p : Str) (r : Bool × Option Str) :
    (SnapTrack_check res snap_name = .ok r → (r.1 = true ↔ res.status_code = 200)) ∧
    (res.status_code = 200 → SnapTrack_check res snap_name = .ok (true, none)) ∧
    (res.status_code = 403 →
      (∀ e ∈ res.error_list, e.code = some (str "macaroon-permission-required") →
        e.extra_permission ≠ none) →
      (∃ e ∈ res.error_list, e.code = some (str "macaroon-needs-refresh")) →
      ∃ m, SnapTrack_check res snap_name = .ok (false, some m) ∧
        get_macaroon_refresh_help <:+: m) ∧
    (res.status_code = 403 →
      res.error_list = [⟨some (str "macaroon-permission-required"), some p⟩] →
      ∃ m, SnapTrack_check res snap_name = .ok (false, some m) ∧
        p <:+: m ∧ get_macaroon_refresh_help <:+: m) := by
  refine ⟨?_, ?_, ?_, ?_⟩
  · intro h
    unfold SnapTrack_check at h
    cases hg : get_macaroon_auth_error res snap_name with
    | error u =>
      rw [hg] at h
      have h' : (Except.error u : Except Unit (Bool × Option Str)) = .ok r := h
      exact Except.noConfusion h'
    | ok a =>
      rw [hg] at h
      have h' : (Except.ok (decide (res.status_code = 200), a) :
          Except Unit (Bool × Option Str)) = .ok r := h
      injection h' with h2
      rw [← h2]
      simp
  · intro h200
    have hg : get_macaroon_auth_error res snap_name = .ok none := by
      unfold get_macaroon_auth_error
      rw [if_pos (Or.inl h200)]
    unfold SnapTrack_check
    rw [hg, h200]
    rfl
  · intro h403 hwf hex
    obtain ⟨m, hm, hinf⟩ := findMacaroonError_help snap_name res.error_list hwf hex
    have hg : get_macaroon_auth_error res snap_name = .ok (some m) := by
      unfold get_macaroon_auth_error
      rw [if_neg (by simp [h403]), if_pos (Or.inr h403), hm]
    refine ⟨m, ?_, hinf⟩
    unfold SnapTrack_check
    rw [hg, h403]
    rfl
  · intro h403 hlist
    have hne : ¬ (some (str "macaroon-permission-required") =
        some (str "macaroon-needs-refresh")) := by decide
    have hm : findMacaroonError snap_name res.error_list =
        .ok (some (str "Macaroon doesn't have " ++ p ++ str " for " ++ snap_name
          ++ str ".\n" ++ get_macaroon_refresh_help)) := by
      rw [hlist]
      unfold findMacaroonError
      rw [if_neg hne, if_pos rfl]
    have hg : get_macaroon_auth_error res snap_name =
        .ok (some (str "Macaroon doesn't have " ++ p ++ str " for " ++ snap_name
          ++ str ".\n" ++ get_macaroon_refresh_help)) := by
      unfold get_macaroon_auth_error
      rw [if_neg (by simp [h403]), if_pos (Or.inr h403), hm]
    refine ⟨str "Macaroon doesn't have " ++ p ++ str " for " ++ snap_name
      ++ str ".\n" ++ get_macaroon_refresh_help, ?_, ?_, ?_⟩
    · unfold SnapTrack_check
      rw [hg, h403]
      rfl
    · exact ⟨str "Macaroon doesn't have ",
        str " for " ++ snap_name ++ str ".\n" ++ get_macaroon_refresh_help, by simp⟩
    · exact ⟨str "Macaroon doesn't have " ++ p ++ str " for " ++ snap_name
        ++ str ".\n", [], by simp⟩

/-- Witness for C4: a 200 response passes; a 403 response carrying a
`macaroon-needs-refresh` error and one carrying a
`macaroon-permission-required` error both fail with refresh instructions. -/
theorem C4_snap_track_witness :
    SnapTrack_check ⟨200, str "", []⟩ (str "maas") = .ok (true, none) ∧
    (∃ m, SnapTrack_check
        ⟨403, str "raw body", [⟨some (str "macaroon-needs-refresh"), none⟩]⟩
        (str "maas") = .ok (false, some m) ∧
      get_macaroon_refresh_help <:+: m) ∧
    (∃ m, SnapTrack_check
        ⟨403, str "raw body",
          [⟨some (str "macaroon-permission-required"), some (str "package_release")⟩]⟩
        (str "maas") = .ok (false, some m) ∧
      str "package_release" <:+: m ∧ get_macaroon_refresh_help <:+: m) :=
  ⟨(C4_snap_track ⟨200, str "", []⟩ (str "maas") [] (true, none)).2.1 rfl,
   (C4_snap_track ⟨403, str "raw body", [⟨some (str "macaroon-needs-refresh"), none⟩]⟩
      (str "maas") [] (true, none)).2.2.1 rfl (by decide) (by decide),
   (C4_snap_track ⟨403, str "raw body",
      [⟨some (str "macaroon-permission-required"), some (str "package_release")⟩]⟩
      (str "maas") (str "package_release") (true, none)).2.2.2 rfl rfl⟩

/-- C5 counterexample: the release-status CLI accepts the single positional
argument `"bananas"` (and would proceed to run the checks with it) even
though it does not match the `<major>.<minor>.<micro>[(a|b|rc)<num>]`
pattern: `create_parser`/`main` perform no pattern validation. -/
theorem C5_counterexample :
    parse_args [str "bananas"] = .ok (str "bananas") ∧
    matches_release_pattern (str "bananas") = false := by
  decide

/-- C5 (amended): the release-status CLI takes a single positional version
argument and accepts any such argument (not read as an option) without
validating it against the version pattern; the
`<major>.<minor>.<micro>[(a|b|rc)<num>]` pattern is enforced only by the
`release-prepare` shell script, which rejects every non-matching version. -/
theorem C5_cli_no_validation (v : Str) :
    ((v.headD ' ' == '-') = false → parse_args [v] = .ok v) ∧
    (matches_release_pattern v = false → release_prepare_accepts_version v = false) ∧
    (release_prepare_accepts_version v = true → matches_release_pattern v = true) := by
  refine ⟨?_, ?_, ?_⟩
  · intro h
    show (if (v.headD ' ' == '-') = true then Except.error () else Except.ok v) = .ok v
    rw [if_neg (by rw [h]; simp)]
  · intro h
    unfold release_prepare_accepts_version
    rw [h]
    simp
  · intro h
    unfold release_prepare_accepts_version at h
    exact (Bool.and_eq_true _ _ |>.mp h).2

/-- Witness for the amended C5 theorem: `"bananas"` is accepted by the CLI
but rejected by the shell script validation; `"3.1.0"` passes both. -/
theorem C5_cli_no_validation_witness :
    parse_args [str "bananas"] = .ok (str "bananas") ∧
    release_prepare_accepts_version (str "bananas") = false ∧
    matches_release_pattern (str "3.1.0") = true :=
  ⟨(C5_cli_no_validation (str "bananas")).1 (by decide),
   (C5_cli_no_validation (str "bananas")).2.1 (by decide),
   (C5_cli_no_validation (str "3.1.0")).2.2 (by decide)⟩

/-- C9 counterexample: a published source version with fewer than three
`-`-separated parts does NOT make `_check_version` raise when its first
part differs from the expected version: the short-circuiting `and` returns
`False` before `version_parts[2]` is evaluated. Here the expected version
is `"3.1.0"` and the published version `"2.0.0"` has a single part. -/
theorem C9_counterexample :
    MAASPackagePublished_check_version (str "3.1.0") (str "abc1234") (str "2.0.0") =
      .ok false ∧
    MAASPackagePublished_check true (str "me") (str "maas-3.1-next") (str "3.1.0")
      (str "abc1234") [str "2.0.0"] [] =
      .ok (false, some (str "Currently published source version is 2.0.0. Expected 3.1.0")) := by
  decide

/-- C9 (amended): with more than one published `maas` source,
`MAASPackagePublished.check` raises an uncaught `ValueError` from the
single-element destructuring instead of returning a `(False, message)`
result; and its version comparison raises (an `IndexError`) exactly when
the published version's first `-`-part equals the expected `~`-mangled
version while fewer than three `-`-parts exist — when the first part
differs it returns `False` without raising. -/
theorem C9_published_check (ppa_owner_name ppa_name version git_short_rev pv : Str)
    (sources : List Str) (binaries : List PublishedBinary) :
    (2 ≤ sources.length →
      MAASPackagePublished_check true ppa_owner_name ppa_name version git_short_rev
        sources binaries = .error ()) ∧
    (MAASPackagePublished_check_version version git_short_rev pv = .error () ↔
      ((pySplit '-' (if containsChar ':' pv then (pySplit1 ':' pv).getLastD [] else pv)).headD []
          = pyReplaceChar '-' '~' version ∧
       (pySplit '-' (if containsChar ':' pv then (pySplit1 ':' pv).getLastD [] else pv)).length < 3)) := by
  constructor
  · intro h
    rcases sources with _ | ⟨a, _ | ⟨b, rest⟩⟩
    · simp at h
    · simp at h
    · rfl
  · unfold MAASPackagePublished_check_version
    constructor
    · intro h
      by_cases hh : (pySplit '-' (if containsChar ':' pv then (pySplit1 ':' pv).getLastD [] else pv)).headD []
          = pyReplaceChar '-' '~' version
      · refine ⟨hh, ?_⟩
        rw [if_pos hh] at h
        cases hg : (pySplit '-' (if containsChar ':' pv then (pySplit1 ':' pv).getLastD [] else pv)).get? 2 with
        | some p2 => rw [hg] at h; simp at h
        | none =>
          have := List.get?_eq_none.mp hg
          omega
      · rw [if_neg hh] at h
        simp at h
    · rintro ⟨hh, hlen⟩
      rw [if_pos hh, List.get?_eq_none.mpr (by omega)]

/-- Witness for the amended C9 theorem: two published sources raise, and a
version whose first part matches the expectation but has a single
`-`-part raises in the comparison. -/
theorem C9_published_check_witness :
    MAASPackagePublished_check true (str "me") (str "maas-3.1-next") (str "3.1.0")
      (str "abc1234") [str "1:3.1.0-0ubuntu1", str "1:3.1.0-0ubuntu2"] [] = .error () ∧
    MAASPackagePublished_check_version (str "3.1.0") (str "abc1234") (str "3.1.0") =
      .error () :=
  ⟨(C9_published_check (str "me") (str "maas-3.1-next") (str "3.1.0") (str "abc1234")
      [] [str "1:3.1.0-0ubuntu1", str "1:3.1.0-0ubuntu2"] []).1 (by decide),
   (C9_published_check (str "me") (str "maas-3.1-next") (str "3.1.0") (str "abc1234")
      (str "3.1.0") [] []).2.mpr (by decide)⟩

/-- C10 counterexample: the `"Release hasn't been tagged yet."` branch of
`ReleaseTagged.check` is NOT unreachable: when `tags/<version>` resolves to
no commit but the version string itself short-rev-resolves to a commit
(e.g. a branch of the same name exists), the tagged revision is empty
while the short-rev lookup is not, so the second branch is taken. -/
theorem C10_counterexample :
    ReleaseTagged_check
      ⟨fun _ => [], fun r => if r = [] then [] else str "abc1234"⟩
      (str "3.1.0") (str "abc1234") (str "origin") [] =
      (false, some (str "Release hasn't been tagged yet.")) := by
  decide

/-- C10 (amended): for every tag name for which both the tag-commit lookup
and the short-revision lookup return the empty string (in particular any
tag name that resolves to no commit at all, given that the empty string
resolves to nothing), `ReleaseTagged.check` fails with
`"The <tag> isn't an annotated tag"`; and the
`"Release hasn't been tagged yet."` branch is reached exactly when the
tagged-revision lookup is empty while the tag name itself
short-rev-resolves to something non-empty. -/
theorem C10_release_tagged (g : GitRepo)
    (version git_short_rev official_maas_remote : Str)
    (remote_branches : List (Str × Str)) :
    (get_tag_commit g version = [] → get_git_short_rev g version = [] →
      get_git_short_rev g [] = [] →
      ReleaseTagged_check g version git_short_rev official_maas_remote remote_branches =
        (false, some (str "The " ++ version ++ str " isn't an annotated tag"))) ∧
    (ReleaseTagged_check g version git_short_rev official_maas_remote remote_branches =
        (false, some (str "Release hasn't been tagged yet.")) →
      get_git_short_rev g (get_tag_commit g version) = [] ∧
      get_git_short_rev g version ≠ []) := by
  constructor
  · intro h1 h2 h3
    unfold ReleaseTagged_check
    rw [h1, h3, h2, if_pos rfl]
  · intro h
    unfold ReleaseTagged_check at h
    by_cases h1 : get_git_short_rev g (get_tag_commit g version) =
        get_git_short_rev g version
    · rw [if_pos h1] at h
      have heq : str "The " ++ version ++ str " isn't an annotated tag" =
          str "Release hasn't been tagged yet." := by
        simpa using h
      have hinf : (str " isn't an annotated tag") <:+:
          (str "Release hasn't been tagged yet.") :=
        heq ▸ ⟨str "The " ++ version, [], by simp⟩
      exact absurd hinf (by decide)
    · rw [if_neg h1] at h
      by_cases h2 : get_git_short_rev g (get_tag_commit g version) = []
      · refine ⟨h2, ?_⟩
        intro hv
        exact h1 (by rw [h2, hv])
      · rw [if_neg h2] at h
        by_cases h3 : get_git_short_rev g (get_tag_commit g version) ≠ git_short_rev
        · rw [if_pos h3] at h
          have heq : version ++ str " points to "
              ++ get_git_short_rev g (get_tag_commit g version)
              ++ str " instead of " ++ git_short_rev =
              str "Release hasn't been tagged yet." := by
            simpa using h
          have hinf : (str " points to ") <:+: (str "Release hasn't been tagged yet.") :=
            heq ▸ ⟨version, get_git_short_rev g (get_tag_commit g version)
              ++ str " instead of " ++ git_short_rev, by simp⟩
          exact absurd hinf (by decide)
        · rw [if_neg h3] at h
          cases h4 : !((remote_branches.map Prod.fst).contains official_maas_remote) with
          | true =>
            rw [h4, if_pos rfl] at h
            have heq : version ++ str " tag is not pushed to " ++ official_maas_remote =
                str "Release hasn't been tagged yet." := by
              simpa using h
            have hinf : (str " tag is not pushed to ") <:+:
                (str "Release hasn't been tagged yet.") :=
              heq ▸ ⟨version, official_maas_remote, by simp⟩
            exact absurd hinf (by decide)
          | false =>
            rw [h4] at h
            simp at h

/-- Witness for the amended C10 theorem: a repository with no refs at all
gives the annotated-tag failure; a repository where the version resolves
as a non-tag ref reaches the not-tagged branch. -/
theorem C10_release_tagged_witness :
    ReleaseTagged_check ⟨fun _ => [], fun _ => []⟩ (str "3.1.0") (str "abc1234")
      (str "origin") [] =
      (false, some (str "The " ++ str "3.1.0" ++ str " isn't an annotated tag")) ∧
    (get_git_short_rev ⟨fun _ => [], fun r => if r = [] then [] else str "abc1234"⟩
        (get_tag_commit ⟨fun _ => [], fun r => if r = [] then [] else str "abc1234"⟩
          (str "3.1.0")) = [] ∧
      get_git_short_rev ⟨fun _ => [], fun r => if r = [] then [] else str "abc1234"⟩
        (str "3.1.0") ≠ []) :=
  ⟨(C10_release_tagged ⟨fun _ => [], fun _ => []⟩ (str "3.1.0") (str "abc1234")
      (str "origin") []).1 rfl rfl rfl,
   (C10_release_tagged ⟨fun _ => [], fun r => if r = [] then [] else str "abc1234"⟩
      (str "3.1.0") (str "abc1234") (str "origin") []).2 (by decide)⟩

example : matches_release_pattern (str "3.1.0") = true := by decide
example : matches_release_pattern (str "3.1.0rc1") = true := by decide
example : matches_release_pattern (str "3.1.0b3") = true := by decide
example : matches_release_pattern (str "3.1.0-beta1") = false := by decide
example : matches_release_pattern (str "bananas") = false := by decide
example : matches_release_pattern (str "1.1.0") = false := by decide
example : get_major_version (str "3.1.0") = str "3.1" := by decide
example : get_major_version (str "3.1.0-beta1") = str "3.1" := by decide
example : get_major_version (str "1.2.3.4") = str "1.2.3" := by decide
example : get_version_grade (str "3.1.0-beta3") = .ok (str "beta") := by decide
example : get_version_grade (str "3.1.0") = .ok (str "final") := by decide
example : get_snap_release_channel (str "3.1.0-rc1") = .ok (str "3.1/candidate") := by decide
